import Mathlib

/-!
Verification of the `Command` process supervisor from `src/models/command/index.ts`
(repository thassiov/tuizer), via a shallow embedding.

Modelling conventions:
- JS `undefined`/`null` become `Option.none`; machine time (`new Date()`) is a
  monotone `Nat` counter `clock` carried in the state, incremented once per
  delivered event.
- Asynchronous child-process events (`exit`, `error`, stdout/stderr `data`,
  input-channel `data`) are delivered to a pure transition function `step`;
  listeners exist only once a child process was spawned, so `step` is the
  identity while `childProcess = false`.
- `String.prototype.replace` with a string replacement interprets the JS
  substitution patterns in the replacement; `getSubstitution` embeds
  ECMAScript GetSubstitution for a zero-capture-group regex.
-/

namespace Tuizer

/-- A command parameter: either a literal string or an input object
`\x7b parameter, answer \x7d` (answer may be absent, i.e. JS `undefined`). -/
inductive CommandParameter
  | literal (s : String)
  | obj (parameter : String) (answer : Option String)
deriving DecidableEq

/-- `CommandStatus` enum from `definitions/CommandStatusEnum`. -/
inductive CommandStatus
  | NOT_STARTED
  | RUNNING
  | FINISHED
  | ERROR
  | STOPPED
  | KILLED
deriving DecidableEq

/-- `HistoryEntryType` enum from `definitions/IHistoryEntry`. -/
inductive HistoryEntryType
  | IN
  | OUT
  | ERR
deriving DecidableEq

/-- One history entry: data chunk, timestamp (model clock), direction tag. -/
structure HistoryEntry where
  data : String
  date : Nat
  type : HistoryEntryType
deriving DecidableEq

/-- Index of the first `$` not immediately preceded by a backslash
(the JS regex `/(?<!\\)\$/`); `prev` is the character just before the list. -/
def firstUnescapedDollarIdx (prev : Option Char) : List Char → Option Nat
  | [] => none
  | c :: rest =>
    if c = '$' ∧ prev ≠ some '\\' then some 0
    else (firstUnescapedDollarIdx (some c) rest).map (fun n => n + 1)

/-- ECMAScript GetSubstitution for a string replacement and a regex with no
capture groups: in the replacement, a dollar sign followed by a dollar sign
yields one dollar sign, dollar-ampersand yields the matched text, dollar
followed by the backquote character (code 96) yields the text before the
match, dollar followed by the apostrophe character (code 39) yields the text
after the match; any other use of the dollar sign is literal. -/
def getSubstitution (matched pre suf : List Char) : List Char → List Char
  | [] => []
  | c :: rest =>
    if c = '$' then
      match rest with
      | [] => ['$']
      | c2 :: rest2 =>
        if c2 = '$' then '$' :: getSubstitution matched pre suf rest2
        else if c2 = '&' then matched ++ getSubstitution matched pre suf rest2
        else if c2 = Char.ofNat 96 then pre ++ getSubstitution matched pre suf rest2
        else if c2 = Char.ofNat 39 then suf ++ getSubstitution matched pre suf rest2
        else '$' :: getSubstitution matched pre suf (c2 :: rest2)
    else c :: getSubstitution matched pre suf rest

/-- JS ToString applied to `param.answer as string`: `undefined` prints as
the string "undefined" when used as a replacement. -/
def answerToString : Option String → String
  | some s => s
  | none => "undefined"

/-- One step of `Command.resolveCommandParameters` (the `params.map` body):
a literal string passes through; an object parameter with an unescaped `$`
in its template has the first such occurrence replaced (JS
`String.prototype.replace` semantics) by the answer; otherwise the answer
itself (possibly the JS value `undefined`, i.e. `none`) is the result. -/
def resolveOne : CommandParameter → Option String
  | CommandParameter.literal s => some s
  | CommandParameter.obj tpl ans =>
    match firstUnescapedDollarIdx none tpl.toList with
    | some i =>
      some (String.mk (tpl.toList.take i ++
        getSubstitution ['$'] (tpl.toList.take i) (tpl.toList.drop (i + 1))
          (answerToString ans).toList ++
        tpl.toList.drop (i + 1)))
    | none => ans

/-- `Command.resolveCommandParameters`: elementwise resolution, in order. -/
def resolveCommandParameters (ps : List CommandParameter) : List (Option String) :=
  ps.map resolveOne

/-- Raw (pre-validation) command descriptor shape; `none` models a missing
field (`ICommandDescriptor`). -/
structure RawDescriptor where
  command : Option String
  parameters : Option (List CommandParameter)
  description : Option String
  nameAlias : Option String
deriving DecidableEq

/-- Raw stream bundle (`RunCommandStreams`): three handles (readable input,
writable output, writable error), each possibly missing; handles are model
identifiers. -/
structure RawStreams where
  readInput : Option Nat
  writeOutput : Option Nat
  writeError : Option Nat
deriving DecidableEq

/-- Modelled from the spec: `commandDescriptorSchema.safeParse(...).success`
(the zod schema lives in `definitions/ICommandDescriptor`, which is not part
of the provided sources). Spec section 3: `command` is required and
non-empty; `parameters`, `description`, `nameAlias` are optional. -/
def commandDescriptorValid (d : RawDescriptor) : Bool :=
  match d.command with
  | some c => !c.isEmpty
  | none => false

/-- Modelled from the spec: `runCommandArgsSchema.safeParse(...).success`
(the zod schema lives in `definitions/ICommand`, which is not part of the
provided sources). Spec section 6: a bundle of three stream handles, all
required. -/
def streamsValid (st : RawStreams) : Bool :=
  st.readInput.isSome && st.writeOutput.isSome && st.writeError.isSome

/-- Validation failure thrown by the `Command` constructor. -/
structure ValidationErr where
  message : String
deriving DecidableEq

/-- Mutable state of one `Command` supervisor. `clock` is the model's
monotone wall clock; `outChannel`/`errChannel`/`stdinChannel` record the
writes performed on the bridged streams; `errorLogCount` counts
`logger.error` calls made by the process-error listener; `spawnArgs`
records the resolved argument vector passed to `spawn`. -/
structure CommandState where
  command : String
  parameters : List CommandParameter
  description : String
  nameAlias : String
  pid : Option Nat
  status : CommandStatus
  runAs : Nat
  exitCode : Option Int
  history : List HistoryEntry
  childProcess : Bool
  startDate : Option Nat
  streams : RawStreams
  clock : Nat
  outChannel : List String
  errChannel : List String
  stdinChannel : List String
  errorLogCount : Nat
  spawnArgs : Option (List (Option String))
deriving DecidableEq

/-- The `Command` constructor: validates the descriptor, then the stream
bundle (throwing `ValidationError` on either failure), then initialises the
fields exactly as the source does (`nameAlias || idGenerator()`,
`description || ""`, `parameters || []`, status `NOT_STARTED`, empty
history, null child process, null exit code). `generatedId` stands for
`idGenerator()` and `runAs` for `userInfo()`; `clock0` is the construction
time. -/
def mkCommand (commandDescriptor : RawDescriptor) (streams : RawStreams)
    (generatedId : String) (runAs : Nat) (clock0 : Nat) :
    Except ValidationErr CommandState :=
  if !(commandDescriptorValid commandDescriptor) then
    Except.error ⟨"Could not create command instance: command descriptor not provided"⟩
  else if !(streamsValid streams) then
    Except.error ⟨"Could not create command instance: IO streams not provided"⟩
  else
    Except.ok
      { command := commandDescriptor.command.getD ""
        parameters := commandDescriptor.parameters.getD []
        description := commandDescriptor.description.getD ""
        nameAlias :=
          match commandDescriptor.nameAlias with
          | some a => if a.isEmpty then generatedId else a
          | none => generatedId
        pid := none
        status := CommandStatus.NOT_STARTED
        runAs := runAs
        exitCode := none
        history := []
        childProcess := false
        startDate := none
        streams := streams
        clock := clock0
        outChannel := []
        errChannel := []
        stdinChannel := []
        errorLogCount := 0
        spawnArgs := none }

/-- Result of `run()`: it either returns normally or throws `ProcessError`. -/
inductive RunOutcome
  | ok
  | processError
deriving DecidableEq

/-- `Command.run()`: resolves the parameters, records `startDate`, then
spawns. `spawnResult` is the environment's behaviour of `spawn`: `some pid`
for a successful spawn, `none` when `spawn` throws. On success the child
process handle, pid and `RUNNING` status are recorded and the listeners are
attached; on a throw, the fields after the `spawn` call are untouched and a
`ProcessError` is surfaced (the state keeps the already-written
`startDate`). -/
def run (s : CommandState) (spawnResult : Option Nat) :
    RunOutcome × CommandState :=
  let args := resolveCommandParameters s.parameters
  let s0 := { s with startDate := some s.clock, clock := s.clock + 1 }
  match spawnResult with
  | some pid =>
    (RunOutcome.ok,
      { s0 with childProcess := true, pid := some pid,
                status := CommandStatus.RUNNING, spawnArgs := some args })
  | none => (RunOutcome.processError, s0)

/-- The exit branch of `Command.eventsListener`'s `switch` default case:
`if (code && code > 0)` — `code` null or `0` is falsy. -/
def exitDefaultStatus (code : Option Int) : CommandStatus :=
  match code with
  | some c => if 0 < c then CommandStatus.ERROR else CommandStatus.FINISHED
  | none => CommandStatus.FINISHED

/-- The `switch (signal)` of the exit listener in `Command.eventsListener`. -/
def exitStatus (code : Option Int) (signal : Option String) : CommandStatus :=
  if signal = some "SIGKILL" then CommandStatus.KILLED
  else if signal = some "SIGTERM" then CommandStatus.STOPPED
  else exitDefaultStatus code

/-- An asynchronous event delivered to the listeners attached by
`eventsListener` and `registerIoEvent`. -/
inductive Ev
  | exit (code : Option Int) (signal : Option String)
  | procError
  | stdoutData (data : String)
  | stderrData (data : String)
  | inputData (data : String)
deriving DecidableEq

/-- Delivery of one event. The listeners only exist after a successful
spawn (`this.childProcess?.on`, and `registerIoEvent` runs inside the
successful branch of `run`), so with no child process nothing happens.
Exit: set status by signal/code and store the exit code. Error: set status
`STOPPED`, log (the commented-out `exitCode` assignment means the exit code
is untouched). Stdout/stderr data: write through to the external channel
and push an `OUT`/`ERR` history entry. Input-channel data: write to the
child's stdin and push an `IN` entry. Every entry is timestamped with the
current clock. -/
def step (s : CommandState) (e : Ev) : CommandState :=
  if s.childProcess = false then s
  else
    match e with
    | Ev.exit code signal =>
      { s with status := exitStatus code signal, exitCode := code,
               clock := s.clock + 1 }
    | Ev.procError =>
      { s with status := CommandStatus.STOPPED,
               errorLogCount := s.errorLogCount + 1, clock := s.clock + 1 }
    | Ev.stdoutData d =>
      { s with outChannel := s.outChannel ++ [d],
               history := s.history ++ [⟨d, s.clock, HistoryEntryType.OUT⟩],
               clock := s.clock + 1 }
    | Ev.stderrData d =>
      { s with errChannel := s.errChannel ++ [d],
               history := s.history ++ [⟨d, s.clock, HistoryEntryType.ERR⟩],
               clock := s.clock + 1 }
    | Ev.inputData d =>
      { s with stdinChannel := s.stdinChannel ++ [d],
               history := s.history ++ [⟨d, s.clock, HistoryEntryType.IN⟩],
               clock := s.clock + 1 }

/-- `Command.stop()`: `this.childProcess?.kill('SIGTERM')` — sends SIGTERM
when a child process exists, otherwise does nothing; the command state is
not mutated either way. Returns the (unchanged) state and the signal sent,
if any. -/
def stop (s : CommandState) : CommandState × Option String :=
  (s, if s.childProcess then some "SIGTERM" else none)

/-- `Command.kill()`: `this.childProcess?.kill('SIGKILL')`. -/
def kill (s : CommandState) : CommandState × Option String :=
  (s, if s.childProcess then some "SIGKILL" else none)

/-- `Command.setParameters`: unconditionally replaces the stored
parameters. -/
def setParameters (s : CommandState) (parameters : List CommandParameter) :
    CommandState :=
  { s with parameters := parameters }

/-- `Command.isRunning()`. -/
def isRunning (s : CommandState) : Bool :=
  s.status = CommandStatus.RUNNING

/-- A status from which the spec's state diagram has no outgoing edge. -/
def isTerminal : CommandStatus → Bool
  | CommandStatus.FINISHED => true
  | CommandStatus.ERROR => true
  | CommandStatus.STOPPED => true
  | CommandStatus.KILLED => true
  | _ => false

/-- The history tag an event produces, if any. -/
def evType : Ev → Option HistoryEntryType
  | Ev.stdoutData _ => some HistoryEntryType.OUT
  | Ev.stderrData _ => some HistoryEntryType.ERR
  | Ev.inputData _ => some HistoryEntryType.IN
  | _ => none

/-- The history entry an event appends when delivered at clock `c`. -/
def dataEntry (c : Nat) : Ev → Option HistoryEntry
  | Ev.stdoutData d => some ⟨d, c, HistoryEntryType.OUT⟩
  | Ev.stderrData d => some ⟨d, c, HistoryEntryType.ERR⟩
  | Ev.inputData d => some ⟨d, c, HistoryEntryType.IN⟩
  | _ => none

/-- The history entries appended by a list of events delivered starting at
clock `c` (one clock tick per event). -/
def entriesFrom (c : Nat) : List Ev → List HistoryEntry
  | [] => []
  | e :: rest => (dataEntry c e).toList ++ entriesFrom (c + 1) rest

/-- Number of history entries carrying tag `t`. -/
def countType (t : HistoryEntryType) (hs : List HistoryEntry) : Nat :=
  (hs.filter (fun hE => hE.type = t)).length

/-- Number of events that append an entry with tag `t`. -/
def countEv (t : HistoryEntryType) (evs : List Ev) : Nat :=
  (evs.filter (fun e => evType e = some t)).length

/-- Concrete descriptor used in witnesses. -/
def demoDescriptor : RawDescriptor :=
  ⟨some "ls", some [], none, none⟩

/-- Concrete stream bundle used in witnesses. -/
def demoStreams : RawStreams :=
  ⟨some 0, some 1, some 2⟩

/-- The command state `mkCommand demoDescriptor demoStreams "g" 0 0`
produces. -/
def demoCmd0 : CommandState :=
  { command := "ls"
    parameters := []
    description := ""
    nameAlias := "g"
    pid := none
    status := CommandStatus.NOT_STARTED
    runAs := 0
    exitCode := none
    history := []
    childProcess := false
    startDate := none
    streams := demoStreams
    clock := 0
    outChannel := []
    errChannel := []
    stdinChannel := []
    errorLogCount := 0
    spawnArgs := none }

/-- The demo command after a successful `run` with pid 42. -/
def demoRunning : CommandState :=
  (run demoCmd0 (some 42)).2

/-- The demo command after its process exited normally with code 0. -/
def demoFinished : CommandState :=
  step demoRunning (Ev.exit (some 0) none)

/-- The resolver as the spec words it (for comparison with `resolveOne`):
the first unescaped marker, when present, is replaced by the answer itself
(no replacement-pattern interpretation), the rest of the template kept
intact; with no marker the answer alone is the result. Absent answers
follow the spec's "literal string undefined" wording. -/
def resolveOneSpec : CommandParameter → Option String
  | CommandParameter.literal s => some s
  | CommandParameter.obj tpl ans =>
    match firstUnescapedDollarIdx none tpl.toList with
    | some i =>
      some (String.mk (tpl.toList.take i ++ (answerToString ans).toList ++
        tpl.toList.drop (i + 1)))
    | none => ans

/-- Concrete parameter list used in witnesses (a literal, a substitution,
and an escaped marker). -/
def demoParams : List CommandParameter :=
  [CommandParameter.literal "pp",
   CommandParameter.obj "--name=$" (some "bob"),
   CommandParameter.obj "price: \\$100" (some "ignored")]

/-- Concrete event script used in witnesses: two stdout chunks, one stderr
chunk, one input write. -/
def demoEvs : List Ev :=
  [Ev.stdoutData "a", Ev.inputData "b", Ev.stderrData "c", Ev.stdoutData "d"]

lemma step_childProcess (s : CommandState) (e : Ev) :
    (step s e).childProcess = s.childProcess := by
  by_cases h : s.childProcess = false
  · simp [step, h]
  · cases e <;> simp [step, h]

lemma step_history_clock (s : CommandState) (e : Ev)
    (h : s.childProcess = true) :
    (step s e).history = s.history ++ (dataEntry s.clock e).toList ∧
    (step s e).clock = s.clock + 1 := by
  cases e <;> simp [step, h, dataEntry]

lemma foldl_step_history (evs : List Ev) (s : CommandState)
    (hcp : s.childProcess = true) :
    (evs.foldl step s).history = s.history ++ entriesFrom s.clock evs ∧
    (evs.foldl step s).clock = s.clock + evs.length := by
  induction evs generalizing s with
  | nil => simp [entriesFrom]
  | cons e rest ih =>
    have hcp' : (step s e).childProcess = true := by
      rw [step_childProcess]; exact hcp
    have hhc := step_history_clock s e hcp
    have ihr := ih (step s e) hcp'
    constructor
    · rw [List.foldl_cons, ihr.1, hhc.1, hhc.2, entriesFrom, List.append_assoc]
    · rw [List.foldl_cons, ihr.2, hhc.2, List.length_cons]
      omega

lemma entriesFrom_count (t : HistoryEntryType) (c : Nat) (evs : List Ev) :
    countType t (entriesFrom c evs) = countEv t evs := by
  induction evs generalizing c with
  | nil => simp [entriesFrom, countType, countEv]
  | cons e rest ih =>
    have ih2 := ih (c + 1)
    cases e <;> cases t <;>
      simp [entriesFrom, countType, countEv, dataEntry, evType,
            List.filter_cons] at ih2 ⊢ <;>
      omega

lemma entriesFrom_dates (c : Nat) (evs : List Ev) :
    ∀ hE ∈ entriesFrom c evs, c ≤ hE.date := by
  induction evs generalizing c with
  | nil => simp [entriesFrom]
  | cons e rest ih =>
    intro hE hmem
    rw [entriesFrom] at hmem
    rcases List.mem_append.mp hmem with hl | hr
    · cases e <;> simp [dataEntry] at hl <;> simp [hl]
    · exact Nat.le_of_succ_le (ih (c + 1) hE hr)

lemma getSubstitution_of_no_dollar (m p s r : List Char) (h : '$' ∉ r) :
    getSubstitution m p s r = r := by
  induction r with
  | nil => rfl
  | cons c rest ih =>
    have hc : ¬(c = '$') := by
      intro hh
      exact h (by simp [hh])
    have hrest : '$' ∉ rest := fun hh => h (List.mem_cons_of_mem _ hh)
    rw [getSubstitution.eq_def]
    simp [hc, ih hrest]

lemma exitStatus_terminal (code : Option Int) (signal : Option String) :
    isTerminal (exitStatus code signal) = true := by
  rw [exitStatus]
  split_ifs with h1 h2
  · rfl
  · rfl
  · cases code with
    | none => rfl
    | some c =>
      rw [exitDefaultStatus]
      split_ifs <;> rfl

/-- C1: for every process exit event delivered while the Command has a
spawned child process, the new status is KILLED on signal SIGKILL, STOPPED
on signal SIGTERM, ERROR on no signal and positive exit code, FINISHED on
no signal and exit code 0 or absent; and in every case `exitCode` is set to
exactly the code the OS reported (possibly null under a signal). -/
theorem exit_event_status_mapping (s : CommandState) (code : Option Int)
    (signal : Option String) (h : s.childProcess = true) :
    (step s (Ev.exit code signal)).exitCode = code ∧
    (signal = some "SIGKILL" →
      (step s (Ev.exit code signal)).status = CommandStatus.KILLED) ∧
    (signal = some "SIGTERM" →
      (step s (Ev.exit code signal)).status = CommandStatus.STOPPED) ∧
    (∀ c : Int, signal = none → code = some c → 0 < c →
      (step s (Ev.exit code signal)).status = CommandStatus.ERROR) ∧
    (signal = none → (code = some 0 ∨ code = none) →
      (step s (Ev.exit code signal)).status = CommandStatus.FINISHED) := by
  refine ⟨by simp [step, h], ?_, ?_, ?_, ?_⟩
  · intro hsig
    simp [step, h, exitStatus, hsig]
  · intro hsig
    simp [step, h, exitStatus, hsig]
  · intro c hsig hc hpos
    simp [step, h, exitStatus, hsig, hc, exitDefaultStatus, hpos]
  · intro hsig hc
    rcases hc with hc | hc <;>
      simp [step, h, exitStatus, hsig, hc, exitDefaultStatus]

/-- Witness for C1 at the demo running command and the exit event
(code 1, no signal). -/
theorem exit_event_status_mapping_witness :
    demoRunning.childProcess = true ∧
    ((step demoRunning (Ev.exit (some 1) none)).exitCode = some 1 ∧
      (none = some "SIGKILL" →
        (step demoRunning (Ev.exit (some 1) none)).status = CommandStatus.KILLED) ∧
      (none = some "SIGTERM" →
        (step demoRunning (Ev.exit (some 1) none)).status = CommandStatus.STOPPED) ∧
      (∀ c : Int, (none : Option String) = none → some 1 = some c → 0 < c →
        (step demoRunning (Ev.exit (some 1) none)).status = CommandStatus.ERROR) ∧
      ((none : Option String) = none → ((some 1 : Option Int) = some 0 ∨ (some 1 : Option Int) = none) →
        (step demoRunning (Ev.exit (some 1) none)).status = CommandStatus.FINISHED)) :=
  ⟨rfl, exit_event_status_mapping demoRunning (some 1) none rfl⟩

/-- C4: in state NOT_STARTED, when `spawn` throws inside `run()`, the call
surfaces a ProcessError synchronously and the status stays NOT_STARTED; no
child process handle or pid is recorded. -/
theorem run_spawn_failure_preserves_status (s : CommandState)
    (h : s.status = CommandStatus.NOT_STARTED) :
    (run s none).1 = RunOutcome.processError ∧
    (run s none).2.status = CommandStatus.NOT_STARTED ∧
    (run s none).2.childProcess = s.childProcess ∧
    (run s none).2.pid = s.pid := by
  simp [run, h]

/-- Witness for C4 at the freshly constructed demo command. -/
theorem run_spawn_failure_preserves_status_witness :
    demoCmd0.status = CommandStatus.NOT_STARTED ∧
    ((run demoCmd0 none).1 = RunOutcome.processError ∧
      (run demoCmd0 none).2.status = CommandStatus.NOT_STARTED ∧
      (run demoCmd0 none).2.childProcess = demoCmd0.childProcess ∧
      (run demoCmd0 none).2.pid = demoCmd0.pid) :=
  ⟨rfl, run_spawn_failure_preserves_status demoCmd0 rfl⟩

/-- C5: a post-spawn process-level error event is absorbed (the transition
function is total, nothing is thrown): status becomes STOPPED, the error is
logged, and the exit code is left unchanged. -/
theorem proc_error_event_stops (s : CommandState)
    (h : s.childProcess = true) :
    (step s Ev.procError).status = CommandStatus.STOPPED ∧
    (step s Ev.procError).exitCode = s.exitCode ∧
    (step s Ev.procError).errorLogCount = s.errorLogCount + 1 := by
  simp [step, h]

/-- Witness for C5 at the demo running command. -/
theorem proc_error_event_stops_witness :
    demoRunning.childProcess = true ∧
    ((step demoRunning Ev.procError).status = CommandStatus.STOPPED ∧
      (step demoRunning Ev.procError).exitCode = demoRunning.exitCode ∧
      (step demoRunning Ev.procError).errorLogCount = demoRunning.errorLogCount + 1) :=
  ⟨rfl, proc_error_event_stops demoRunning rfl⟩

/-- C10: before any successful spawn (no child process handle), `stop()`
and `kill()` are safe no-ops: no signal is sent, nothing is thrown (the
functions are total), and the state — status, exitCode, history, pid — is
returned unchanged. -/
theorem stop_kill_noop_before_spawn (s : CommandState)
    (h : s.childProcess = false) :
    stop s = (s, none) ∧ kill s = (s, none) := by
  simp [stop, kill, h]

/-- Witness for C10 at the freshly constructed demo command. -/
theorem stop_kill_noop_before_spawn_witness :
    demoCmd0.childProcess = false ∧
    (stop demoCmd0 = (demoCmd0, none) ∧ kill demoCmd0 = (demoCmd0, none)) :=
  ⟨rfl, stop_kill_noop_before_spawn demoCmd0 rfl⟩

/-- C8 counterexample: on the demo command in state RUNNING (not
NOT_STARTED), `setParameters` neither rejects the call nor leaves the
stored parameters unchanged — it overwrites them. -/
theorem set_params_after_run_cex :
    demoRunning.status = CommandStatus.RUNNING ∧
    demoRunning.status ≠ CommandStatus.NOT_STARTED ∧
    (setParameters demoRunning [CommandParameter.literal "x"]).parameters =
      [CommandParameter.literal "x"] ∧
    demoRunning.parameters ≠ [CommandParameter.literal "x"] := by
  decide

/-- C8 amended: `setParameters` unconditionally replaces the stored
parameters in every state (no status guard exists); it changes nothing
else — in particular the status. The NOT_STARTED restriction is a usage
convention of the callers, not enforced by the method. -/
theorem set_params_unconditional (s : CommandState)
    (ps : List CommandParameter) :
    (setParameters s ps).parameters = ps ∧
    (setParameters s ps).status = s.status := by
  simp [setParameters]

/-- C2 counterexample: the demo command reaches the terminal state FINISHED
(exit code 0, no signal); a subsequently delivered process error event then
changes the status again, to STOPPED. Terminal states are thus not
absorbing under delivered events. -/
theorem terminal_not_absorbing_cex :
    isTerminal demoFinished.status = true ∧
    demoFinished.status = CommandStatus.FINISHED ∧
    (step demoFinished Ev.procError).status = CommandStatus.STOPPED ∧
    (step demoFinished Ev.procError).status ≠ demoFinished.status := by
  decide

/-- C2 amended: the status starts at NOT_STARTED at construction and
becomes RUNNING after a successful `run()`; once a terminal state is
reached, delivered process events keep the status terminal — it never
returns to NOT_STARTED or RUNNING — but may still move it between terminal
states (an error event sets STOPPED even after exit). Every delivered
event either leaves the status unchanged or moves it to a terminal state,
and `setParameters`, `stop` and `kill` never change the status. -/
theorem status_machine_progress :
    (∀ (d : RawDescriptor) (st : RawStreams) (g : String) (u c0 : Nat)
        (c : CommandState), mkCommand d st g u c0 = Except.ok c →
        c.status = CommandStatus.NOT_STARTED) ∧
    (∀ (s : CommandState) (pid : Nat),
        (run s (some pid)).2.status = CommandStatus.RUNNING) ∧
    (∀ (s : CommandState) (e : Ev), isTerminal s.status = true →
        isTerminal (step s e).status = true) ∧
    (∀ (s : CommandState) (e : Ev),
        (step s e).status = s.status ∨ isTerminal (step s e).status = true) ∧
    (∀ (s : CommandState) (ps : List CommandParameter),
        (setParameters s ps).status = s.status ∧
        (stop s).1.status = s.status ∧ (kill s).1.status = s.status) := by
  refine ⟨?_, ?_, ?_, ?_, ?_⟩
  · intro d st g u c0 c h
    by_cases h1 : commandDescriptorValid d
    · by_cases h2 : streamsValid st
      · simp [mkCommand, h1, h2] at h
        rw [← h]
      · simp [mkCommand, h1, h2] at h
    · simp [mkCommand, h1] at h
  · intro s pid
    simp [run]
  · intro s e hterm
    by_cases hcp : s.childProcess = false
    · simpa [step, hcp] using hterm
    · cases e with
      | exit code signal =>
        simpa [step, hcp] using exitStatus_terminal code signal
      | procError => simp [step, hcp, isTerminal]
      | stdoutData d => simpa [step, hcp] using hterm
      | stderrData d => simpa [step, hcp] using hterm
      | inputData d => simpa [step, hcp] using hterm
  · intro s e
    by_cases hcp : s.childProcess = false
    · left; simp [step, hcp]
    · cases e with
      | exit code signal =>
        right
        simpa [step, hcp] using exitStatus_terminal code signal
      | procError => right; simp [step, hcp, isTerminal]
      | stdoutData d => left; simp [step, hcp]
      | stderrData d => left; simp [step, hcp]
      | inputData d => left; simp [step, hcp]
  · intro s ps
    simp [setParameters, stop, kill]

/-- Witness for C2: the demo command is constructed in NOT_STARTED, and
the demo terminal state stays terminal under a process error event. -/
theorem status_machine_progress_witness :
    demoCmd0.status = CommandStatus.NOT_STARTED ∧
    isTerminal (step demoFinished Ev.procError).status = true :=
  ⟨status_machine_progress.1 demoDescriptor demoStreams "g" 0 0 demoCmd0 rfl,
   status_machine_progress.2.2.1 demoFinished Ev.procError rfl⟩

/-- C3 counterexample: JS `String.prototype.replace` interprets `$`
patterns in the replacement string, so an answer containing `$$` is not
inserted verbatim: template `"x$"` with answer `"$$"` resolves to `"x$"`,
not to `"x$$"` (= first marker replaced by the answer). -/
theorem resolve_replacement_pattern_cex :
    resolveCommandParameters [CommandParameter.obj "x$" (some "$$")] =
      [some "x$"] ∧
    "x$" ≠ "x" ++ "$$" := by
  decide

/-- C3 amended: for every parameter list whose object parameters all carry
a present answer containing no `$` character, `resolveCommandParameters`
maps each element independently and in order: a literal string is returned
unchanged; an object parameter whose template has an unescaped `$` gets
exactly the first such occurrence replaced by the answer, everything
around it (later markers, escaped markers) kept intact; an object
parameter without an unescaped marker resolves to the answer alone. (An
answer containing `$` is instead subject to the JS replacement-pattern
interpretation.) -/
theorem resolve_params_amended (ps : List CommandParameter)
    (h : ∀ tpl ans, CommandParameter.obj tpl ans ∈ ps →
        ∃ a, ans = some a ∧ '$' ∉ a.toList) :
    resolveCommandParameters ps = ps.map resolveOneSpec := by
  induction ps with
  | nil => rfl
  | cons p rest ih =>
    have hrest : ∀ tpl ans, CommandParameter.obj tpl ans ∈ rest →
        ∃ a, ans = some a ∧ '$' ∉ a.toList :=
      fun tpl ans hm => h tpl ans (List.mem_cons_of_mem _ hm)
    have hmap := ih hrest
    have key : resolveOne p = resolveOneSpec p := by
      cases p with
      | literal s => rfl
      | obj tpl ans =>
        obtain ⟨a, ha, hnd⟩ := h tpl ans (List.mem_cons_self _ _)
        subst ha
        cases hI : firstUnescapedDollarIdx none tpl.data with
        | none => simp [resolveOne, resolveOneSpec, hI]
        | some i =>
          have hg := getSubstitution_of_no_dollar ['$'] (tpl.data.take i)
            (tpl.data.drop (i + 1)) a.data hnd
          simp [resolveOne, resolveOneSpec, hI, answerToString, hg]
    calc resolveCommandParameters (p :: rest)
        = resolveOne p :: resolveCommandParameters rest := rfl
      _ = resolveOneSpec p :: rest.map resolveOneSpec := by rw [key, hmap]
      _ = (p :: rest).map resolveOneSpec := rfl

/-- Witness for C3 at the demo parameter list: a literal, a substitution
at the first marker, and an escaped marker left intact. -/
theorem resolve_params_amended_witness :
    (∀ tpl ans, CommandParameter.obj tpl ans ∈ demoParams →
        ∃ a, ans = some a ∧ '$' ∉ a.toList) ∧
    resolveCommandParameters demoParams = demoParams.map resolveOneSpec := by
  have hans : ∀ tpl ans, CommandParameter.obj tpl ans ∈ demoParams →
      ∃ a, ans = some a ∧ '$' ∉ a.toList := by
    intro tpl ans hm
    simp [demoParams] at hm
    rcases hm with ⟨h1, h2⟩ | ⟨h1, h2⟩
    · exact ⟨"bob", by rw [h2], by decide⟩
    · exact ⟨"ignored", by rw [h2], by decide⟩
  exact ⟨hans, resolve_params_amended demoParams hans⟩

/-- C6 counterexample: an object parameter whose `answer` is absent and
whose template has no unescaped marker resolves to the absent value itself
(JS `undefined`, here `none`), not to the string "undefined". -/
theorem resolve_missing_answer_cex :
    resolveCommandParameters [CommandParameter.obj "ab" none] = [none] ∧
    (none : Option String) ≠ some "undefined" := by
  decide

/-- C6 amended: with an absent `answer`, an object parameter whose
template contains an unescaped marker has the literal string "undefined"
substituted for the first such marker (JS stringification of `undefined`
in `replace`); when the template has no unescaped marker, the parameter
resolves to the absent value itself, not to a string. -/
theorem resolve_missing_answer_amended (tpl : String) :
    (∀ i, firstUnescapedDollarIdx none tpl.toList = some i →
      resolveCommandParameters [CommandParameter.obj tpl none] =
        [some (String.mk (tpl.toList.take i ++ "undefined".toList ++
          tpl.toList.drop (i + 1)))]) ∧
    (firstUnescapedDollarIdx none tpl.toList = none →
      resolveCommandParameters [CommandParameter.obj tpl none] = [none]) := by
  constructor
  · intro i hI
    have hI2 : firstUnescapedDollarIdx none tpl.data = some i := hI
    have hg : getSubstitution ['$'] (tpl.data.take i) (tpl.data.drop (i + 1))
        ['u', 'n', 'd', 'e', 'f', 'i', 'n', 'e', 'd'] =
        ['u', 'n', 'd', 'e', 'f', 'i', 'n', 'e', 'd'] :=
      getSubstitution_of_no_dollar ['$'] (tpl.data.take i)
        (tpl.data.drop (i + 1)) "undefined".toList (by decide)
    simp [resolveCommandParameters, resolveOne, hI2, answerToString, hg]
  · intro hI
    have hI2 : firstUnescapedDollarIdx none tpl.data = none := hI
    simp [resolveCommandParameters, resolveOne, hI2]

/-- Witness for C6: template `"a$b"` (marker at index 1) resolves to
`"aundefinedb"`; template `"ab"` (no marker) resolves to the absent
value. -/
theorem resolve_missing_answer_amended_witness :
    firstUnescapedDollarIdx none "a$b".toList = some 1 ∧
    resolveCommandParameters [CommandParameter.obj "a$b" none] =
      [some "aundefinedb"] ∧
    firstUnescapedDollarIdx none "ab".toList = none ∧
    resolveCommandParameters [CommandParameter.obj "ab" none] = [none] := by
  refine ⟨by decide, ?_, by decide, ?_⟩
  · exact ((resolve_missing_answer_amended "a$b").1 1 (by decide)).trans
      (by decide)
  · exact (resolve_missing_answer_amended "ab").2 (by decide)

/-- C7: a descriptor or stream bundle that fails schema validation makes
the constructor throw a ValidationError synchronously — no command state
(and hence no child process) is ever produced; in particular a descriptor
missing the required `command` field is rejected this way. The schemas are
modelled from the spec (section 3 and section 6), as they live outside the
provided sources. -/
theorem construction_validation (d : RawDescriptor) (st : RawStreams)
    (g : String) (u c0 : Nat)
    (h : d.command = none ∨ commandDescriptorValid d = false ∨
      streamsValid st = false) :
    ∃ e : ValidationErr, mkCommand d st g u c0 = Except.error e := by
  have hinv : commandDescriptorValid d = false ∨ streamsValid st = false := by
    rcases h with h | h | h
    · left; simp [commandDescriptorValid, h]
    · left; exact h
    · right; exact h
  rcases hinv with h1 | h1
  · refine ⟨⟨"Could not create command instance: command descriptor not provided"⟩, ?_⟩
    simp [mkCommand, h1]
  · by_cases h2 : commandDescriptorValid d
    · refine ⟨⟨"Could not create command instance: IO streams not provided"⟩, ?_⟩
      simp [mkCommand, h2, h1]
    · refine ⟨⟨"Could not create command instance: command descriptor not provided"⟩, ?_⟩
      simp [mkCommand, (Bool.not_eq_true _).mp h2]

/-- Witness for C7: a descriptor with no `command` field is rejected. -/
theorem construction_validation_witness :
    (⟨none, none, none, none⟩ : RawDescriptor).command = none ∧
    ∃ e : ValidationErr,
      mkCommand ⟨none, none, none, none⟩ demoStreams "g" 0 0 =
        Except.error e :=
  ⟨rfl, construction_validation ⟨none, none, none, none⟩ demoStreams "g" 0 0
    (Or.inl rfl)⟩

/-- C9: after a successful `run()` (child process present, `startDate`
recorded at time `t`, empty history), delivering any scripted event list
appends to the history exactly the entries of the data events, in delivery
order (so exactly N OUT entries for N stdout chunks, K ERR entries for K
stderr chunks, M IN entries for M input writes), each timestamped no
earlier than `t`; nothing already in the history is mutated or removed —
the final history is the entry list determined by the script alone. -/
theorem history_log_properties (s : CommandState) (t : Nat) (evs : List Ev)
    (hcp : s.childProcess = true) (hsd : s.startDate = some t)
    (ht : t ≤ s.clock) (hh : s.history = []) :
    (evs.foldl step s).history = entriesFrom s.clock evs ∧
    countType HistoryEntryType.OUT (evs.foldl step s).history =
      countEv HistoryEntryType.OUT evs ∧
    countType HistoryEntryType.ERR (evs.foldl step s).history =
      countEv HistoryEntryType.ERR evs ∧
    countType HistoryEntryType.IN (evs.foldl step s).history =
      countEv HistoryEntryType.IN evs ∧
    (∀ hE ∈ (evs.foldl step s).history, t ≤ hE.date) := by
  have hf := foldl_step_history evs s hcp
  have h1 : (evs.foldl step s).history = entriesFrom s.clock evs := by
    rw [hf.1, hh, List.nil_append]
  refine ⟨h1, ?_, ?_, ?_, ?_⟩
  · rw [h1]; exact entriesFrom_count _ _ _
  · rw [h1]; exact entriesFrom_count _ _ _
  · rw [h1]; exact entriesFrom_count _ _ _
  · rw [h1]
    intro hE hm
    exact le_trans ht (entriesFrom_dates s.clock evs hE hm)

/-- Witness for C9 at the demo running command and the demo event script
(two stdout chunks, one input write, one stderr chunk). -/
theorem history_log_properties_witness :
    demoRunning.childProcess = true ∧
    demoRunning.startDate = some 0 ∧
    0 ≤ demoRunning.clock ∧
    demoRunning.history = [] ∧
    ((demoEvs.foldl step demoRunning).history =
        entriesFrom demoRunning.clock demoEvs ∧
      countType HistoryEntryType.OUT (demoEvs.foldl step demoRunning).history =
        countEv HistoryEntryType.OUT demoEvs ∧
      countType HistoryEntryType.ERR (demoEvs.foldl step demoRunning).history =
        countEv HistoryEntryType.ERR demoEvs ∧
      countType HistoryEntryType.IN (demoEvs.foldl step demoRunning).history =
        countEv HistoryEntryType.IN demoEvs ∧
      (∀ hE ∈ (demoEvs.foldl step demoRunning).history, 0 ≤ hE.date)) :=
  ⟨rfl, rfl, Nat.zero_le _, rfl,
   history_log_properties demoRunning 0 demoEvs rfl rfl (Nat.zero_le _) rfl⟩

end Tuizer
